import Mathlib

/-!
Verification of the fast-dissolve utility (src/py/fast_dissolve.py).

Shallow embedding: coordinates are rational pairs, shapely rings are lists
of coordinate pairs, polygons carry an exterior ring and a list of interior
rings, and a geometry is either a polygon or a multipolygon.  The external
geometry kernel (the clip and buffer primitives of geopandas and shapely)
is abstracted as a structure of uninterpreted operations, while everything
the repository itself computes (bounding boxes, the clipping rectangle,
hole filtering by shoelace area, the multipolygon splice loop) is embedded
executably.
-/

namespace FastDissolve

abbrev Coord := ℚ × ℚ

/-- A shapely linear ring: an ordered list of coordinate pairs. -/
abbrev LinearRing := List Coord

/-- A shapely Polygon: exterior ring plus interior rings (holes). -/
structure Polygon where
  exterior : LinearRing
  interiors : List LinearRing
  deriving DecidableEq, Repr

/-- A shapely geometry as used by the script: Polygon or MultiPolygon. -/
inductive Geometry : Type where
  | poly (p : Polygon)
  | multi (polys : List Polygon)
  deriving DecidableEq, Repr

/-- The isinstance MultiPolygon test of the splice loop. -/
def Geometry.isMultiPolygon : Geometry → Bool
  | .multi _ => true
  | .poly _ => false

/-- Cross terms of the shoelace formula, closing the ring back to the
starting point held in the second argument. -/
def shoelaceTerms : List Coord → Coord → ℚ
  | [], _ => 0
  | [p], p0 => p.1 * p0.2 - p0.1 * p.2
  | p :: q :: rest, p0 => (p.1 * q.2 - q.1 * p.2) + shoelaceTerms (q :: rest) p0

/-- Absolute value on the rationals, written so that it evaluates by
kernel reduction. -/
def ratAbs (x : ℚ) : ℚ := if x < 0 then -x else x

/-- Unsigned area enclosed by a ring (shoelace formula, halved absolute
value), as shapely computes it for a simple ring. -/
def ringArea (r : LinearRing) : ℚ :=
  match r with
  | [] => 0
  | p :: _ => ratAbs (shoelaceTerms r p) / 2

/-- Shapely polygon area: exterior area minus the area of the holes. -/
def Polygon.area (p : Polygon) : ℚ :=
  ringArea p.exterior - (p.interiors.map ringArea).sum

/-- close_holes from fast_dissolve.py: with area_max equal to zero drop
every interior ring (returning the input when it has none); otherwise keep
exactly the interior rings bounding an area strictly above area_max. -/
def close_holes (poly : Polygon) (area_max : ℚ) : Polygon :=
  if area_max = 0 then
    if poly.interiors ≠ [] then
      Polygon.mk poly.exterior []
    else
      poly
  else
    let list_interiors := poly.interiors.filter
      (fun interior => decide (Polygon.area (Polygon.mk interior []) > area_max))
    Polygon.mk poly.exterior list_interiors

/-- A geopandas GeoSeries over geometry type alpha: a CRS and a row list. -/
structure GeoSeries (α : Type) where
  crs : Option String
  geoms : List α
  deriving DecidableEq

/-- GeoSeries.apply of geopandas: map a function over the rows, keeping
the CRS. -/
def GeoSeries.apply {α β : Type} (s : GeoSeries α) (f : α → β) : GeoSeries β :=
  GeoSeries.mk s.crs (s.geoms.map f)

/-- fill_geopandas from fast_dissolve.py: apply close_holes to every row. -/
def fill_geopandas (df : GeoSeries Polygon) (area_max : ℚ) : GeoSeries Polygon :=
  df.apply (fun p => close_holes p area_max)

/-- A geopandas GeoDataFrame: an index, a CRS, and a geometry column. -/
structure GeoDataFrame (α : Type) where
  index : List Nat
  crs : Option String
  geometry : List α
  deriving DecidableEq

/-- The geometry attribute of a GeoDataFrame, as a GeoSeries. -/
def GeoDataFrame.geoseries {α : Type} (g : GeoDataFrame α) : GeoSeries α :=
  GeoSeries.mk g.crs g.geometry

/-- All coordinates appearing in a geometry. -/
def Geometry.coords : Geometry → List Coord
  | .poly p => p.exterior ++ p.interiors.flatten
  | .multi ps => (ps.map (fun p => p.exterior ++ p.interiors.flatten)).flatten

/-- df.total_bounds: (minx, miny, maxx, maxy) over every coordinate of
every row, or none for a collection with no coordinates (where geopandas
yields NaNs). -/
def totalBounds (df : GeoSeries Geometry) : Option (ℚ × ℚ × ℚ × ℚ) :=
  match (df.geoms.map Geometry.coords).flatten with
  | [] => none
  | c :: cs =>
    some (cs.foldl
      (fun acc q =>
        (min acc.1 q.1, min acc.2.1 q.2, max acc.2.2.1 q.1, max acc.2.2.2 q.2))
      (c.1, c.2, c.1, c.2))

/-- The rectangle ring built in dissolve_geopandas by zipping
lat_point_list with lon_point_list. -/
def rectRing (left bottom right top : ℚ) : LinearRing :=
  let lat_point_list := [left, right, right, left, left]
  let lon_point_list := [top, top, bottom, bottom, top]
  lat_point_list.zip lon_point_list

/-- The rect GeoDataFrame of dissolve_geopandas: total bounds expanded by
one unit on every side, built as a single-row frame with the input CRS. -/
def dissolveRect (df : GeoSeries Geometry) : Option (GeoDataFrame Geometry) :=
  (totalBounds df).map (fun tb =>
    let left := tb.1 - 1
    let bottom := tb.2.1 - 1
    let right := tb.2.2.1 + 1
    let top := tb.2.2.2 + 1
    let polygon_geom := Polygon.mk (rectRing left bottom right top) []
    GeoDataFrame.mk [0] df.crs [Geometry.poly polygon_geom])

/-- The external geometry kernel: gpd.clip and the shapely buffer method
(geometry, distance, join style), left uninterpreted. -/
structure GeoLib where
  clip : GeoDataFrame Geometry → GeoSeries Geometry → GeoDataFrame Geometry
  buf : Geometry → ℚ → Nat → Geometry

/-- The shapely join_style code for a mitred (sharp corner) join. -/
def mitreJoinStyle : Nat := 2

/-- buffer from fast_dissolve.py: expand by a small distance with a mitred
join, then shrink by the same distance with the same join style. -/
def buffer (lib : GeoLib) (poly : Geometry) : Geometry :=
  let dist : ℚ := 1 / 100000
  lib.buf (lib.buf poly dist 2) (-dist) 2

/-- GeoSeries(clipped.loc[i]).explode(): one row per constituent polygon. -/
def explodeGeom : Geometry → List Geometry
  | .poly p => [Geometry.poly p]
  | .multi ps => ps.map Geometry.poly

/-- The for loop at the end of dissolve_geopandas: walk the rows of the
buffered clip result; at each MultiPolygon row i overwrite the accumulator
with clipped.loc[(i+1):] followed by the exploded parts of row i. -/
def spliceGo (clipped : List Geometry) :
    List Geometry → Nat → List Geometry → List Geometry
  | acc, _, [] => acc
  | acc, i, g :: rest =>
    spliceGo clipped
      (if g.isMultiPolygon then clipped.drop (i + 1) ++ explodeGeom g else acc)
      (i + 1) rest

/-- The splice stage applied to the whole buffered clip result, starting
from the copy clipped_ of that result. -/
def spliceLoop (clipped : List Geometry) : List Geometry :=
  spliceGo clipped clipped 0 clipped

/-- The buffered clip result of dissolve_geopandas: clip the expanded
rectangle against the input, then apply buffer to every row. -/
def bufferedClip (lib : GeoLib) (df : GeoSeries Geometry) :
    Option (List Geometry) :=
  (dissolveRect df).map (fun rect =>
    ((lib.clip rect df).geoseries.apply (fun p => buffer lib p)).geoms)

/-- dissolve_geopandas from fast_dissolve.py: build the expanded bounding
rectangle, clip it against the input, buffer each row, then run the
multipolygon splice loop; none when the input has no coordinates at all
(degenerate total_bounds). -/
def dissolve_geopandas (lib : GeoLib) (df : GeoSeries Geometry) :
    Option (List Geometry) :=
  (bufferedClip lib df).map spliceLoop

/-! Concrete fixtures used by witnesses and counterexamples. -/

/-- A unit square with no holes. -/
def sqA : Polygon := Polygon.mk [(0, 0), (1, 0), (1, 1), (0, 1), (0, 0)] []

/-- A second unit square, disjoint from the first. -/
def sqB : Polygon := Polygon.mk [(2, 0), (3, 0), (3, 1), (2, 1), (2, 0)] []

/-- A one-row input collection holding the first unit square. -/
def dfUnit : GeoSeries Geometry := GeoSeries.mk none [Geometry.poly sqA]

/-- A kernel whose clip always yields two MultiPolygon rows and whose
buffer primitive is the identity. -/
def libTwoMulti : GeoLib :=
  GeoLib.mk
    (fun _ _ => GeoDataFrame.mk [0] none [Geometry.multi [sqA], Geometry.multi [sqB]])
    (fun g _ _ => g)

/-- A kernel whose clip always yields one MultiPolygon row followed by a
plain polygon row, buffer primitive the identity. -/
def libMultiThenPoly : GeoLib :=
  GeoLib.mk
    (fun _ _ => GeoDataFrame.mk [0] none [Geometry.multi [sqA, sqB], Geometry.poly sqA])
    (fun g _ _ => g)

/-- A kernel whose clip always yields a single plain polygon row, buffer
primitive the identity. -/
def libSinglePoly : GeoLib :=
  GeoLib.mk
    (fun _ _ => GeoDataFrame.mk [0] none [Geometry.poly sqA])
    (fun g _ _ => g)

/-- A unit square hole (area one). -/
def demoHole1 : LinearRing := [(1, 1), (2, 1), (2, 2), (1, 2), (1, 1)]

/-- A two by two square hole (area four). -/
def demoHole2 : LinearRing := [(4, 4), (6, 4), (6, 6), (4, 6), (4, 4)]

/-- A ten by ten square with the unit square hole and the two by two
hole. -/
def demoPoly : Polygon :=
  Polygon.mk [(0, 0), (10, 0), (10, 10), (0, 10), (0, 0)]
    [demoHole1, demoHole2]

example : ringArea demoHole1 = 1 := by
  norm_num [ringArea, demoHole1, shoelaceTerms, ratAbs]
example : ringArea demoHole2 = 4 := by
  norm_num [ringArea, demoHole2, shoelaceTerms, ratAbs]
example : close_holes demoPoly 1 = Polygon.mk demoPoly.exterior [demoHole2] := by
  norm_num [close_holes, demoPoly, Polygon.area, ringArea, demoHole1, demoHole2,
    shoelaceTerms, ratAbs, List.filter]
example : close_holes demoPoly 0 = Polygon.mk demoPoly.exterior [] := by
  norm_num [close_holes, demoPoly]
example : totalBounds dfUnit = some (0, 0, 1, 1) := by
  norm_num [totalBounds, dfUnit, Geometry.coords, sqA, List.foldl]
example : dissolve_geopandas libTwoMulti dfUnit = some [Geometry.poly sqB] := by
  norm_num [dissolve_geopandas, bufferedClip, dissolveRect, totalBounds, dfUnit,
    Geometry.coords, sqA, List.foldl, libTwoMulti, GeoDataFrame.geoseries,
    GeoSeries.apply, buffer, spliceLoop, spliceGo, Geometry.isMultiPolygon,
    explodeGeom]
example : dissolve_geopandas libMultiThenPoly dfUnit =
    some [Geometry.poly sqA, Geometry.poly sqA, Geometry.poly sqB] := by
  norm_num [dissolve_geopandas, bufferedClip, dissolveRect, totalBounds, dfUnit,
    Geometry.coords, sqA, List.foldl, libMultiThenPoly, GeoDataFrame.geoseries,
    GeoSeries.apply, buffer, spliceLoop, spliceGo, Geometry.isMultiPolygon,
    explodeGeom]
example : dissolve_geopandas libSinglePoly dfUnit = some [Geometry.poly sqA] := by
  norm_num [dissolve_geopandas, bufferedClip, dissolveRect, totalBounds, dfUnit,
    Geometry.coords, sqA, List.foldl, libSinglePoly, GeoDataFrame.geoseries,
    GeoSeries.apply, buffer, spliceLoop, spliceGo, Geometry.isMultiPolygon,
    explodeGeom]

/-! Helper lemmas. -/

theorem ratAbs_nonneg (x : ℚ) : 0 ≤ ratAbs x := by
  unfold ratAbs
  split <;> linarith

theorem ringArea_nonneg (r : LinearRing) : 0 ≤ ringArea r := by
  unfold ringArea
  split
  · exact le_refl 0
  · exact div_nonneg (ratAbs_nonneg _) (by norm_num)

theorem holeArea_eq_ringArea (r : LinearRing) :
    Polygon.area (Polygon.mk r []) = ringArea r := by
  simp [Polygon.area]

theorem spliceGo_no_multi (clipped acc : List Geometry) (i : Nat)
    (rest : List Geometry) (h : ∀ g ∈ rest, g.isMultiPolygon = false) :
    spliceGo clipped acc i rest = acc := by
  induction rest generalizing acc i with
  | nil => rfl
  | cons g gs ih =>
    have hg : g.isMultiPolygon = false := h g (List.mem_cons_self g gs)
    rw [spliceGo, hg]
    simp only [Bool.false_eq_true, if_false]
    exact ih acc (i + 1) (fun x hx => h x (List.mem_cons_of_mem g hx))

theorem spliceGo_last_multi (clipped : List Geometry) (r₁ : List Geometry)
    (g : Geometry) (r₂ : List Geometry) (hg : g.isMultiPolygon = true)
    (h₂ : ∀ x ∈ r₂, x.isMultiPolygon = false) :
    ∀ (acc : List Geometry) (i : Nat),
      spliceGo clipped acc i (r₁ ++ g :: r₂) =
        clipped.drop (i + r₁.length + 1) ++ explodeGeom g := by
  induction r₁ with
  | nil =>
    intro acc i
    rw [List.nil_append, spliceGo, hg]
    simp only [if_true, List.length_nil, Nat.add_zero]
    exact spliceGo_no_multi clipped _ (i + 1) r₂ h₂
  | cons x xs ih =>
    intro acc i
    rw [List.cons_append, spliceGo]
    rw [ih _ (i + 1)]
    congr 2
    simp only [List.length_cons]
    omega

/-! Claim theorems. -/

/-- Claim C7: buffer returns the polygon expanded outward by the distance
1/100000 with the mitred (join style 2) join and then shrunk inward by the
same distance with the same join style. -/
theorem buffer_mitre_roundtrip (lib : GeoLib) (g : Geometry) :
    buffer lib g =
      lib.buf (lib.buf g (1 / 100000) mitreJoinStyle)
        (-(1 / 100000)) mitreJoinStyle := rfl

/-- Claim C4: with area_max equal to zero, close_holes returns a polygon
with no interior rings and the exterior ring of the input, and when the
input already has no interior rings it is returned unchanged. -/
theorem close_holes_zero (poly : Polygon) :
    (close_holes poly 0).interiors = [] ∧
    (close_holes poly 0).exterior = poly.exterior ∧
    (poly.interiors = [] → close_holes poly 0 = poly) := by
  unfold close_holes
  by_cases h : poly.interiors = [] <;> simp [h]

/-- Witness for C4 at concrete polygons: demoPoly has holes and they are
all dropped; sqA has none and is returned unchanged. -/
theorem close_holes_zero_witness :
    (close_holes demoPoly 0).interiors = [] ∧ close_holes sqA 0 = sqA :=
  ⟨(close_holes_zero demoPoly).1, (close_holes_zero sqA).2.2 rfl⟩

/-- Claim C3: with nonzero area_max, close_holes keeps the exterior ring
and exactly the interior rings whose bounded polygon area is strictly
greater than area_max. -/
theorem close_holes_nonzero (poly : Polygon) (area_max : ℚ)
    (h : area_max ≠ 0) :
    (close_holes poly area_max).exterior = poly.exterior ∧
    ∀ r : LinearRing,
      r ∈ (close_holes poly area_max).interiors ↔
        r ∈ poly.interiors ∧ Polygon.area (Polygon.mk r []) > area_max := by
  unfold close_holes
  simp [h, List.mem_filter]

/-- Witness for C3 at demoPoly with area_max one: the unit hole, of area
exactly one, is discarded, while the area four hole is kept. -/
theorem close_holes_nonzero_witness :
    ((close_holes demoPoly 1).exterior = demoPoly.exterior ∧
      ¬ demoHole1 ∈ (close_holes demoPoly 1).interiors) ∧
    demoHole2 ∈ (close_holes demoPoly 1).interiors := by
  have h := close_holes_nonzero demoPoly 1 (by norm_num)
  refine ⟨⟨h.1, ?_⟩, ?_⟩
  · intro hmem
    have := (h.2 demoHole1).mp hmem
    have harea : Polygon.area (Polygon.mk demoHole1 []) = 1 := by
      norm_num [Polygon.area, ringArea, demoHole1, shoelaceTerms, ratAbs]
    rw [harea] at this
    exact absurd this.2 (by norm_num)
  · refine (h.2 demoHole2).mpr ⟨by simp [demoPoly], ?_⟩
    have harea : Polygon.area (Polygon.mk demoHole2 []) = 4 := by
      norm_num [Polygon.area, ringArea, demoHole2, shoelaceTerms, ratAbs]
    rw [harea]
    norm_num

/-- Claim C9: for every area_max, close_holes keeps the exterior ring, the
surviving interior rings form an order preserving subsequence of the input
rings, and for negative area_max every interior ring survives. -/
theorem close_holes_structure (poly : Polygon) (area_max : ℚ) :
    (close_holes poly area_max).exterior = poly.exterior ∧
    (close_holes poly area_max).interiors.Sublist poly.interiors ∧
    (area_max < 0 → (close_holes poly area_max).interiors = poly.interiors) := by
  by_cases h0 : area_max = 0
  · subst h0
    unfold close_holes
    by_cases h : poly.interiors = [] <;> simp [h]
  · unfold close_holes
    refine ⟨by simp [h0], by simp [h0, List.filter_sublist], fun hneg => ?_⟩
    simp only [h0, if_false]
    apply List.filter_eq_self.mpr
    intro r _
    rw [decide_eq_true_eq, holeArea_eq_ringArea]
    exact lt_of_lt_of_le hneg (ringArea_nonneg r)

/-- Witness for C9: with area_max minus one, every hole of demoPoly is
kept. -/
theorem close_holes_structure_witness :
    (close_holes demoPoly (-1)).interiors = demoPoly.interiors :=
  (close_holes_structure demoPoly (-1)).2.2 (by norm_num)

/-- Claim C6: fill_geopandas preserves the CRS and the row count, and its
row i is close_holes applied to row i of the input, for every i. -/
theorem fill_geopandas_rowwise (df : GeoSeries Polygon) (area_max : ℚ) :
    (fill_geopandas df area_max).crs = df.crs ∧
    (fill_geopandas df area_max).geoms.length = df.geoms.length ∧
    ∀ i : Nat,
      (fill_geopandas df area_max).geoms[i]? =
        (df.geoms[i]?).map (fun p => close_holes p area_max) := by
  refine ⟨rfl, by simp [fill_geopandas, GeoSeries.apply], fun i => ?_⟩
  simp [fill_geopandas, GeoSeries.apply]

/-- Claim C5: when the total bounds of the input are (left, bottom, right,
top), the clipping rectangle is the single-row frame, carrying the input
CRS, holding the rectangle with corners (left-1, top+1), (right+1, top+1),
(right+1, bottom-1), (left-1, bottom-1). -/
theorem dissolveRect_corners (df : GeoSeries Geometry)
    (left bottom right top : ℚ)
    (h : totalBounds df = some (left, bottom, right, top)) :
    dissolveRect df = some (GeoDataFrame.mk [0] df.crs
      [Geometry.poly (Polygon.mk
        [(left - 1, top + 1), (right + 1, top + 1), (right + 1, bottom - 1),
         (left - 1, bottom - 1), (left - 1, top + 1)] [])]) := by
  rw [dissolveRect, h]
  rfl

/-- Witness for C5: the one-row unit square input has total bounds
(0, 0, 1, 1) and yields the expanded rectangle around it. -/
theorem dissolveRect_corners_witness :
    totalBounds dfUnit = some (0, 0, 1, 1) ∧
    dissolveRect dfUnit = some (GeoDataFrame.mk [0] dfUnit.crs
      [Geometry.poly (Polygon.mk
        [((0:ℚ) - 1, (1:ℚ) + 1), ((1:ℚ) + 1, (1:ℚ) + 1),
         ((1:ℚ) + 1, (0:ℚ) - 1), ((0:ℚ) - 1, (0:ℚ) - 1),
         ((0:ℚ) - 1, (1:ℚ) + 1)] [])]) := by
  have h : totalBounds dfUnit = some (0, 0, 1, 1) := by
    norm_num [totalBounds, dfUnit, Geometry.coords, sqA, List.foldl]
  exact ⟨h, dissolveRect_corners dfUnit 0 0 1 1 h⟩

/-- Claim C10: when no row of the buffered clip result is a MultiPolygon,
dissolve_geopandas returns the buffered clip result unchanged. -/
theorem dissolve_no_multipolygon (lib : GeoLib) (df : GeoSeries Geometry)
    (clipped : List Geometry)
    (hclip : bufferedClip lib df = some clipped)
    (h : ∀ g ∈ clipped, g.isMultiPolygon = false) :
    dissolve_geopandas lib df = some clipped := by
  rw [dissolve_geopandas, hclip]
  simp only [Option.map_some']
  rw [spliceLoop, spliceGo_no_multi clipped clipped 0 clipped h]

/-- Witness for C10 with a kernel whose clip yields a single plain polygon
row. -/
theorem dissolve_no_multipolygon_witness :
    dissolve_geopandas libSinglePoly dfUnit = some [Geometry.poly sqA] := by
  have hclip : bufferedClip libSinglePoly dfUnit = some [Geometry.poly sqA] := by
    norm_num [bufferedClip, dissolveRect, totalBounds, dfUnit, Geometry.coords,
      sqA, List.foldl, libSinglePoly, GeoDataFrame.geoseries, GeoSeries.apply,
      buffer]
  refine dissolve_no_multipolygon libSinglePoly dfUnit [Geometry.poly sqA] hclip ?_
  intro g hg
  rw [List.mem_singleton] at hg
  subst hg
  rfl

/-- Claim C1 as stated is false: with two MultiPolygon rows in the
buffered clip result, the final output is determined by the second one
alone, so for the first MultiPolygon row the output is not the rows after
it followed by its exploded parts. -/
theorem claim_c1_counterexample :
    bufferedClip libTwoMulti dfUnit =
      some [Geometry.multi [sqA], Geometry.multi [sqB]] ∧
    (Geometry.multi [sqA]).isMultiPolygon = true ∧
    dissolve_geopandas libTwoMulti dfUnit ≠
      some (List.drop (0 + 1) [Geometry.multi [sqA], Geometry.multi [sqB]] ++
        explodeGeom (Geometry.multi [sqA])) := by
  refine ⟨?_, rfl, ?_⟩
  · norm_num [bufferedClip, dissolveRect, totalBounds, dfUnit, Geometry.coords,
      sqA, List.foldl, libTwoMulti, GeoDataFrame.geoseries, GeoSeries.apply,
      buffer]
  · have hval : dissolve_geopandas libTwoMulti dfUnit = some [Geometry.poly sqB] := by
      norm_num [dissolve_geopandas, bufferedClip, dissolveRect, totalBounds,
        dfUnit, Geometry.coords, sqA, List.foldl, libTwoMulti,
        GeoDataFrame.geoseries, GeoSeries.apply, buffer, spliceLoop, spliceGo,
        Geometry.isMultiPolygon, explodeGeom]
    rw [hval]
    simp [explodeGeom]

/-- Claim C1 amended: for the last MultiPolygon row i of the buffered clip
result (no row after i is a MultiPolygon), the final output is the rows
strictly after i followed by the exploded constituent polygons of row i,
so rows strictly before i are dropped. -/
theorem dissolve_last_multipolygon (lib : GeoLib) (df : GeoSeries Geometry)
    (clipped : List Geometry) (i : Nat) (hi : i < clipped.length)
    (hclip : bufferedClip lib df = some clipped)
    (hmulti : (clipped[i]).isMultiPolygon = true)
    (hafter : ∀ g ∈ clipped.drop (i + 1), g.isMultiPolygon = false) :
    dissolve_geopandas lib df =
      some (clipped.drop (i + 1) ++ explodeGeom clipped[i]) := by
  have hdecomp : clipped = clipped.take i ++ clipped[i] :: clipped.drop (i + 1) := by
    conv_lhs => rw [← List.take_append_drop i clipped]
    rw [List.drop_eq_getElem_cons hi]
  have hrun := spliceGo_last_multi clipped (clipped.take i) (clipped[i])
    (clipped.drop (i + 1)) hmulti hafter clipped 0
  rw [← hdecomp] at hrun
  rw [List.length_take, Nat.min_eq_left (le_of_lt hi), Nat.zero_add] at hrun
  rw [dissolve_geopandas, hclip]
  simp only [Option.map_some']
  rw [spliceLoop, hrun]

/-- Witness for the amended C1: one MultiPolygon row followed by a plain
polygon row; the output is that later row followed by the two exploded
parts. -/
theorem dissolve_last_multipolygon_witness :
    dissolve_geopandas libMultiThenPoly dfUnit =
      some [Geometry.poly sqA, Geometry.poly sqA, Geometry.poly sqB] := by
  have hclip : bufferedClip libMultiThenPoly dfUnit =
      some [Geometry.multi [sqA, sqB], Geometry.poly sqA] := by
    norm_num [bufferedClip, dissolveRect, totalBounds, dfUnit, Geometry.coords,
      sqA, List.foldl, libMultiThenPoly, GeoDataFrame.geoseries, GeoSeries.apply,
      buffer]
  have h := dissolve_last_multipolygon libMultiThenPoly dfUnit
    [Geometry.multi [sqA, sqB], Geometry.poly sqA] 0 (by norm_num) hclip rfl
    (by intro g hg
        simp only [List.drop_succ_cons, List.drop_zero, List.mem_singleton] at hg
        subst hg
        rfl)
  simpa [explodeGeom] using h

end FastDissolve
